import Mathlib

/-!
Verification development for the safiri-sales point-of-sale application.

The definitions below are a shallow embedding of the client-side logic in
`src/pages/POS.tsx` (cart operations, totals computation, the checkout
sequence) and `src/pages/Dashboard.tsx` (dashboard statistics), together
with the relevant database behaviour declared in the Supabase migration
(the UNIQUE constraint on `sales.receipt_number`).

Monetary values and rates (JavaScript numbers in the source) are modelled
as rationals; quantities and stock counts as integers.  The database is a
record of row lists; fallible inserts are driven by an explicit fault
schedule so that partial-failure executions can be stated and proved.
-/

namespace SafiriSales

/-- A product row as selected by the POS screen
(`id, name, selling_price, stock_quantity, vat_rate`). -/
structure Product where
  id : String
  name : String
  selling_price : ℚ
  stock_quantity : ℤ
  vat_rate : ℚ
  deriving DecidableEq, Repr

/-- A cart line: `interface CartItem extends Product { quantity; line_total }`. -/
structure CartItem extends Product where
  quantity : ℤ
  line_total : ℚ
  deriving DecidableEq, Repr

/-- `updateQuantity(productId, newQuantity)`: clamp the new quantity at 0,
recompute the line total, and drop lines whose quantity is not positive. -/
def updateQuantity (cart : List CartItem) (productId : String) (newQuantity : ℤ) :
    List CartItem :=
  (cart.map (fun item =>
    if item.id == productId then
      let quantity := max 0 newQuantity
      { item with quantity := quantity,
                  line_total := item.selling_price * (quantity : ℚ) }
    else item)).filter (fun item => decide (0 < item.quantity))

/-- `removeFromCart(productId)`. -/
def removeFromCart (cart : List CartItem) (productId : String) : List CartItem :=
  cart.filter (fun item => !(item.id == productId))

/-- The fresh cart line built by `addToCart` for a product not yet in the cart. -/
def newCartItem (product : Product) : CartItem :=
  { product with quantity := 1, line_total := product.selling_price }

/-- `addToCart(product)`.  Returns the new cart together with a flag that is
`true` exactly when the "Not enough stock available" error toast fired. -/
def addToCart (cart : List CartItem) (product : Product) : List CartItem × Bool :=
  match cart.find? (fun item => item.id == product.id) with
  | some existingItem =>
      if product.stock_quantity ≤ existingItem.quantity then
        (cart, true)
      else
        (updateQuantity cart product.id (existingItem.quantity + 1), false)
  | none => (cart ++ [newCartItem product], false)

/-- The record returned by `calculateTotals()`. -/
structure Totals where
  subtotal : ℚ
  vatAmount : ℚ
  total : ℚ
  deriving DecidableEq, Repr

/-- `calculateTotals()`: subtotal is the sum of line totals, VAT is extracted
per line from the VAT-inclusive line total, and the total is the subtotal. -/
def calculateTotals (cart : List CartItem) : Totals :=
  let subtotal := cart.foldl (fun sum item => sum + item.line_total) 0
  let vatAmount := cart.foldl
    (fun sum item => sum + (item.line_total * item.vat_rate) / (100 + item.vat_rate)) 0
  { subtotal := subtotal, vatAmount := vatAmount, total := subtotal }

/-- A row of the `sales` table, as inserted by `handleCheckout`.
`id` is the primary key assigned by the database on insert. -/
structure SaleRow where
  id : String
  receipt_number : String
  store_id : String
  cashier_id : String
  subtotal : ℚ
  vat_amount : ℚ
  total_amount : ℚ
  status : String
  deriving DecidableEq, Repr

/-- A row of the `sale_items` table. -/
structure SaleItemRow where
  sale_id : String
  product_id : String
  product_name : String
  quantity : ℤ
  unit_price : ℚ
  vat_rate : ℚ
  line_total : ℚ
  deriving DecidableEq, Repr

/-- A row of the `payments` table. -/
structure PaymentRow where
  sale_id : String
  payment_method : String
  amount : ℚ
  deriving DecidableEq, Repr

/-- The database state touched by the checkout flow.  `nextId` generates the
primary keys the backend assigns to inserted sales. -/
structure DB where
  sales : List SaleRow
  sale_items : List SaleItemRow
  payments : List PaymentRow
  products : List Product
  nextId : ℕ
  deriving DecidableEq, Repr

/-- An empty database. -/
def DB.empty : DB := ⟨[], [], [], [], 0⟩

/-- Which of the three checked inserts of `handleCheckout` fail in a given
execution (backend errors are outside the client's control). -/
structure FaultSpec where
  saleInsertFails : Bool
  itemsInsertFails : Bool
  paymentInsertFails : Bool
  deriving DecidableEq, Repr

/-- The fault-free execution. -/
def FaultSpec.none : FaultSpec := ⟨false, false, false⟩

/-- One database call issued by `handleCheckout`, for stating the order of
the sequential writes. -/
inductive Event where
  | insertSale : Event
  | insertItems : Event
  | insertPayment : Event
  | updateStock : String → Event
  deriving DecidableEq, Repr

/-- Result of a `handleCheckout` execution: the final database, whether the
flow reached the success toast, and the trace of database calls issued. -/
structure CheckoutResult where
  db : DB
  success : Bool
  trace : List Event
  deriving DecidableEq, Repr

/-- `` `RCP-${Date.now()}` ``: the receipt number generated at checkout from
the current timestamp. -/
def genReceiptNumber (now : ℕ) : String := "RCP-" ++ toString now

/-- The `sales` insert payload (with its database-assigned id). -/
def mkSaleRow (saleId receiptNumber storeId cashierId : String)
    (t : Totals) : SaleRow :=
  { id := saleId, receipt_number := receiptNumber, store_id := storeId,
    cashier_id := cashierId, subtotal := t.subtotal, vat_amount := t.vatAmount,
    total_amount := t.total, status := "completed" }

/-- The `sale_items` insert payload built from one cart line. -/
def mkSaleItemRow (saleId : String) (item : CartItem) : SaleItemRow :=
  { sale_id := saleId, product_id := item.id, product_name := item.name,
    quantity := item.quantity, unit_price := item.selling_price,
    vat_rate := item.vat_rate, line_total := item.line_total }

/-- One iteration of the stock-update loop: set the product's
`stock_quantity` to the cart snapshot's stock minus the quantity sold. -/
def updateStockRow (products : List Product) (item : CartItem) : List Product :=
  products.map (fun p =>
    if p.id == item.id then
      { p with stock_quantity := item.stock_quantity - item.quantity }
    else p)

/-- The stock-update loop over the whole cart. -/
def applyStockUpdates (cart : List CartItem) (products : List Product) :
    List Product :=
  cart.foldl updateStockRow products

/-- `handleCheckout(paymentMethod)`: the guards, the three checked inserts in
order (`sales`, then `sale_items`, then `payments`, each throwing on error),
and finally the unchecked per-product stock updates.  The `sales` insert also
fails when the generated receipt number collides with an existing row, per
the UNIQUE constraint on `sales.receipt_number` in the migration. -/
def handleCheckout (fs : FaultSpec) (now : ℕ) (storeId : Option String)
    (cashierId : String) (paymentMethod : String) (cart : List CartItem)
    (db : DB) : CheckoutResult :=
  if cart.isEmpty then ⟨db, false, []⟩
  else match storeId with
  | Option.none => ⟨db, false, []⟩
  | some sid =>
    let t := calculateTotals cart
    let receiptNumber := genReceiptNumber now
    if fs.saleInsertFails || db.sales.any (fun s => s.receipt_number == receiptNumber) then
      ⟨db, false, [Event.insertSale]⟩
    else
      let saleId := toString db.nextId
      let sale := mkSaleRow saleId receiptNumber sid cashierId t
      let db1 : DB := { db with sales := db.sales ++ [sale], nextId := db.nextId + 1 }
      if fs.itemsInsertFails then ⟨db1, false, [Event.insertSale, Event.insertItems]⟩
      else
        let saleItems := cart.map (mkSaleItemRow saleId)
        let db2 : DB := { db1 with sale_items := db1.sale_items ++ saleItems }
        if fs.paymentInsertFails then
          ⟨db2, false, [Event.insertSale, Event.insertItems, Event.insertPayment]⟩
        else
          let payment : PaymentRow :=
            { sale_id := saleId, payment_method := paymentMethod, amount := t.total }
          let db3 : DB := { db2 with payments := db2.payments ++ [payment] }
          let db4 : DB := { db3 with products := applyStockUpdates cart db3.products }
          ⟨db4, true,
            [Event.insertSale, Event.insertItems, Event.insertPayment]
              ++ cart.map (fun item => Event.updateStock item.id)⟩

/-- A `sales` row as selected by the dashboard (`total_amount` plus the
columns its query filters on). -/
structure DashSaleRow where
  store_id : String
  status : String
  total_amount : ℚ
  created_at : ℕ
  deriving DecidableEq, Repr

/-- A `products` row as selected by the dashboard
(`stock_quantity, reorder_level` plus the columns its query filters on). -/
structure DashProductRow where
  store_id : String
  active : Bool
  stock_quantity : ℤ
  reorder_level : ℤ
  deriving DecidableEq, Repr

/-- The four statistics computed by the dashboard. -/
structure DashStats where
  todaySales : ℚ
  todayTransactions : ℕ
  lowStock : ℕ
  totalProducts : ℕ
  deriving DecidableEq, Repr

/-- `fetchDashboardData`: the two filtered queries and the client-side
reduces over their results, from `src/pages/Dashboard.tsx`. -/
def fetchDashboardData (storeId : String) (startOfDay : ℕ)
    (sales : List DashSaleRow) (products : List DashProductRow) : DashStats :=
  let todaySales := sales.filter (fun s =>
    s.store_id == storeId && s.status == "completed" && decide (startOfDay ≤ s.created_at))
  let totalSales := todaySales.foldl (fun sum s => sum + s.total_amount) 0
  let transactionCount := todaySales.length
  let prods := products.filter (fun p => p.store_id == storeId && p.active)
  let lowStockCount := (prods.filter (fun p => decide (p.stock_quantity ≤ p.reorder_level))).length
  { todaySales := totalSales, todayTransactions := transactionCount,
    lowStock := lowStockCount, totalProducts := prods.length }

/-! ### Spec-side formulations

These definitions restate, in the spec's words, the values the claims say
the code computes; the theorems below compare them with the definitions
taken from the source. -/

/-- Spec-side: the VAT of a cart is the sum over cart items of
`line_total * vat_rate / (100 + vat_rate)`. -/
def vatSpec (cart : List CartItem) : ℚ :=
  (cart.map (fun item => item.line_total * item.vat_rate / (100 + item.vat_rate))).sum

/-- Spec-side: the subtotal of a cart is the sum of the line totals. -/
def subtotalSpec (cart : List CartItem) : ℚ :=
  (cart.map (fun item => item.line_total)).sum

/-- Spec-side: Today's Sales is the sum of `total_amount` over the completed
sales of the store created since the start of the current day. -/
def todaySalesSpec (storeId : String) (startOfDay : ℕ)
    (sales : List DashSaleRow) : ℚ :=
  ((sales.filter (fun s =>
    s.store_id == storeId && s.status == "completed" && decide (startOfDay ≤ s.created_at))).map
      (fun s => s.total_amount)).sum

/-- Spec-side: Transactions is the count of those sales. -/
def transactionsSpec (storeId : String) (startOfDay : ℕ)
    (sales : List DashSaleRow) : ℕ :=
  (sales.filter (fun s =>
    s.store_id == storeId && s.status == "completed" && decide (startOfDay ≤ s.created_at))).length

/-- Spec-side: Low Stock Items is the count of active store products with
`stock_quantity ≤ reorder_level`. -/
def lowStockSpec (storeId : String) (products : List DashProductRow) : ℕ :=
  (products.filter (fun p =>
    p.store_id == storeId && p.active && decide (p.stock_quantity ≤ p.reorder_level))).length

/-- Spec-side: Total Products is the count of active store products. -/
def totalProductsSpec (storeId : String) (products : List DashProductRow) : ℕ :=
  (products.filter (fun p => p.store_id == storeId && p.active)).length

/-- Cart well-formedness: every line has a positive quantity and a line total
equal to price times quantity, and no two lines share a product id. -/
def CartWF (cart : List CartItem) : Prop :=
  (∀ item ∈ cart,
      1 ≤ item.quantity ∧ item.line_total = item.selling_price * (item.quantity : ℚ)) ∧
  cart.Pairwise (fun a b => a.id ≠ b.id)

/-- The cart operations exposed by the POS screen. -/
inductive CartOp where
  | add : Product → CartOp
  | update : String → ℤ → CartOp
  | remove : String → CartOp
  deriving DecidableEq, Repr

/-- Apply one cart operation (the `addToCart` error flag is discarded, as the
component keeps the old cart in that case). -/
def applyCartOp (cart : List CartItem) : CartOp → List CartItem
  | CartOp.add p => (addToCart cart p).1
  | CartOp.update pid q => updateQuantity cart pid q
  | CartOp.remove pid => removeFromCart cart pid

/-- Apply a sequence of cart operations to the empty cart. -/
def applyCartOps (ops : List CartOp) : List CartItem :=
  ops.foldl applyCartOp []

/-- All sales rows carry pairwise-distinct receipt numbers. -/
def receiptsDistinct (db : DB) : Prop :=
  db.sales.Pairwise (fun a b => a.receipt_number ≠ b.receipt_number)

/-- The inputs of one `handleCheckout` invocation. -/
structure CheckoutRequest where
  fs : FaultSpec
  now : ℕ
  storeId : Option String
  cashierId : String
  paymentMethod : String
  cart : List CartItem
  deriving Repr

/-- Run a sequence of checkout invocations against a database. -/
def runCheckouts (reqs : List CheckoutRequest) (db : DB) : DB :=
  reqs.foldl (fun d r =>
    (handleCheckout r.fs r.now r.storeId r.cashierId r.paymentMethod r.cart d).db) db

/-- Concrete product used by witnesses. -/
def wProduct : Product :=
  { id := "p1", name := "Soda", selling_price := 50, stock_quantity := 10, vat_rate := 16 }

/-- Concrete cart line used by witnesses. -/
def wItem : CartItem := { wProduct with quantity := 2, line_total := 100 }

/-- Concrete cart used by witnesses. -/
def wCart : List CartItem := [wItem]

/-! ### Helper lemmas -/

/-- A left fold accumulating `+ f x` from `a` computes `a` plus the sum of
the mapped list. -/
lemma foldl_add_map_sum {α : Type} (f : α → ℚ) (l : List α) (a : ℚ) :
    l.foldl (fun s x => s + f x) a = a + (l.map f).sum := by
  induction l generalizing a with
  | nil => simp
  | cons x xs ih => simp [ih, add_assoc]

/-! ### Claims about totals and the dashboard -/

/-- C9: for every cart, the total returned by `calculateTotals` equals the
subtotal, the sum of the line totals; the VAT amount is never added on top
of the subtotal. -/
theorem calculateTotals_total_eq_subtotal (cart : List CartItem) :
    (calculateTotals cart).total = (calculateTotals cart).subtotal ∧
    (calculateTotals cart).subtotal = subtotalSpec cart := by
  refine ⟨rfl, ?_⟩
  simpa [calculateTotals, subtotalSpec] using
    foldl_add_map_sum (fun item => item.line_total) cart 0

/-- C3: VAT is computed per line item from a per-product rate: the VAT amount
produced by `calculateTotals` is the sum over cart items of
`line_total * vat_rate / (100 + vat_rate)`, and the `vat_amount` of the sales
row written at checkout equals this sum. -/
theorem vatAmount_per_line_sum (fs : FaultSpec) (now : ℕ) (sid cid pm : String)
    (cart : List CartItem) (db : DB)
    (hcart : cart.isEmpty = false)
    (hfail : fs.saleInsertFails = false)
    (hdup : db.sales.any (fun s => s.receipt_number == genReceiptNumber now) = false) :
    (calculateTotals cart).vatAmount = vatSpec cart ∧
    (handleCheckout fs now (some sid) cid pm cart db).db.sales =
      db.sales ++ [mkSaleRow (toString db.nextId) (genReceiptNumber now) sid cid
        (calculateTotals cart)] ∧
    (mkSaleRow (toString db.nextId) (genReceiptNumber now) sid cid
        (calculateTotals cart)).vat_amount = (calculateTotals cart).vatAmount := by
  have hvat : (calculateTotals cart).vatAmount = vatSpec cart := by
    simpa [calculateTotals, vatSpec] using
      foldl_add_map_sum
        (fun item => item.line_total * item.vat_rate / (100 + item.vat_rate)) cart 0
  refine ⟨hvat, ?_, rfl⟩
  obtain ⟨sf, itf, pf⟩ := fs
  simp only at hfail
  subst hfail
  cases itf <;> cases pf <;>
    simp [handleCheckout, hcart, hdup, mkSaleRow]

/-- C7: the dashboard statistics are exactly the spec's client-side reduces:
Today's Sales is the sum of `total_amount` over the store's completed sales
since the start of the day, Transactions is their count, Low Stock Items is
the count of active store products with `stock_quantity ≤ reorder_level`,
and Total Products is the count of active store products. -/
theorem fetchDashboardData_spec (storeId : String) (startOfDay : ℕ)
    (sales : List DashSaleRow) (products : List DashProductRow) :
    fetchDashboardData storeId startOfDay sales products =
      { todaySales := todaySalesSpec storeId startOfDay sales,
        todayTransactions := transactionsSpec storeId startOfDay sales,
        lowStock := lowStockSpec storeId products,
        totalProducts := totalProductsSpec storeId products } := by
  refine DashStats.mk.injEq _ _ _ _ _ _ _ _ ▸ ?_
  refine ⟨?_, rfl, ?_, rfl⟩
  · simpa [fetchDashboardData, todaySalesSpec] using
      foldl_add_map_sum (fun s : DashSaleRow => s.total_amount)
        (sales.filter (fun s =>
          s.store_id == storeId && s.status == "completed" &&
            decide (startOfDay ≤ s.created_at))) 0
  · simp [fetchDashboardData, lowStockSpec, List.filter_filter, Bool.and_comm,
      Bool.and_assoc, Bool.and_left_comm]

/-- Witness for `vatAmount_per_line_sum` at a concrete cart and database. -/
theorem vatAmount_per_line_sum_witness :
    (calculateTotals wCart).vatAmount = vatSpec wCart ∧
    (handleCheckout FaultSpec.none 5 (some "s1") "c1" "cash" wCart DB.empty).db.sales =
      DB.empty.sales ++ [mkSaleRow (toString DB.empty.nextId) (genReceiptNumber 5) "s1" "c1"
        (calculateTotals wCart)] ∧
    (mkSaleRow (toString DB.empty.nextId) (genReceiptNumber 5) "s1" "c1"
        (calculateTotals wCart)).vat_amount = (calculateTotals wCart).vatAmount :=
  vatAmount_per_line_sum FaultSpec.none 5 "s1" "c1" "cash" wCart DB.empty rfl rfl rfl

/-! ### Claims about the checkout write sequence -/

/-- C1 (counterexample): the checkout writes are not atomic.  In the concrete
execution where the payments insert fails, the flow fails, yet the sales row
written earlier persists: the database is not as before the checkout began. -/
theorem checkout_not_atomic_cex :
    (handleCheckout ⟨false, false, true⟩ 5 (some "s1") "c1" "cash" wCart DB.empty).success
        = false ∧
    (handleCheckout ⟨false, false, true⟩ 5 (some "s1") "c1" "cash" wCart
        DB.empty).db.sales.length = 1 ∧
    DB.empty.sales.length = 0 ∧
    (handleCheckout ⟨false, false, true⟩ 5 (some "s1") "c1" "cash" wCart DB.empty).db
        ≠ DB.empty := by
  refine ⟨rfl, rfl, rfl, ?_⟩
  intro h
  exact absurd (congrArg (fun d => d.sales.length) h) (by decide)

/-- C1 (amended): the checkout writes are sequential and non-atomic.  When
the payments insert fails after the sales and sale_items inserts succeeded,
the flow reports failure but the sales row and the sale_items rows persist:
the final database is the initial one with exactly those rows appended. -/
theorem checkout_payment_failure_keeps_rows (fs : FaultSpec) (now : ℕ)
    (sid cid pm : String) (cart : List CartItem) (db : DB)
    (hcart : cart.isEmpty = false)
    (hsf : fs.saleInsertFails = false)
    (hif : fs.itemsInsertFails = false)
    (hpf : fs.paymentInsertFails = true)
    (hdup : db.sales.any (fun s => s.receipt_number == genReceiptNumber now) = false) :
    (handleCheckout fs now (some sid) cid pm cart db).success = false ∧
    (handleCheckout fs now (some sid) cid pm cart db).db =
      { db with
          sales := db.sales ++ [mkSaleRow (toString db.nextId) (genReceiptNumber now)
            sid cid (calculateTotals cart)],
          sale_items := db.sale_items ++ cart.map (mkSaleItemRow (toString db.nextId)),
          nextId := db.nextId + 1 } := by
  obtain ⟨sf, itf, pf⟩ := fs
  simp only at hsf hif hpf
  subst hsf; subst hif; subst hpf
  simp [handleCheckout, hcart, hdup]

/-- Witness for `checkout_payment_failure_keeps_rows` at a concrete input. -/
theorem checkout_payment_failure_keeps_rows_witness :
    (handleCheckout ⟨false, false, true⟩ 7 (some "s2") "c2" "card" wCart DB.empty).success
        = false ∧
    (handleCheckout ⟨false, false, true⟩ 7 (some "s2") "c2" "card" wCart DB.empty).db =
      { DB.empty with
          sales := DB.empty.sales ++ [mkSaleRow (toString DB.empty.nextId)
            (genReceiptNumber 7) "s2" "c2" (calculateTotals wCart)],
          sale_items := DB.empty.sale_items ++ wCart.map (mkSaleItemRow (toString DB.empty.nextId)),
          nextId := DB.empty.nextId + 1 } :=
  checkout_payment_failure_keeps_rows ⟨false, false, true⟩ 7 "s2" "c2" "card" wCart
    DB.empty rfl rfl rfl rfl rfl

/-- C2: the checkout sequence performs independent, non-atomic writes with no
rollback or compensation: there is an execution in which the payments insert
fails while the sales row and the sale_items rows written earlier remain in
the database, and the payments table is exactly as before (no compensating
delete is issued). -/
theorem checkout_nonatomic_execution :
    ∃ (fs : FaultSpec) (now : ℕ) (sid cid pm : String) (cart : List CartItem) (db : DB),
      fs.paymentInsertFails = true ∧
      (handleCheckout fs now (some sid) cid pm cart db).success = false ∧
      (handleCheckout fs now (some sid) cid pm cart db).db.sales =
        db.sales ++ [mkSaleRow (toString db.nextId) (genReceiptNumber now) sid cid
          (calculateTotals cart)] ∧
      (handleCheckout fs now (some sid) cid pm cart db).db.sale_items =
        db.sale_items ++ cart.map (mkSaleItemRow (toString db.nextId)) ∧
      (handleCheckout fs now (some sid) cid pm cart db).db.payments = db.payments ∧
      cart ≠ [] := by
  exact ⟨⟨false, false, true⟩, 5, "s1", "c1", "cash", wCart, DB.empty, rfl, rfl, rfl, rfl,
    rfl, by decide⟩

/-- C6: the checkout flow issues its database calls sequentially, each step
starting only after the previous one succeeded: the trace is `insertSale`
alone when the sales insert fails, then `insertItems`, then `insertPayment`,
and the per-product stock updates come last, only in the execution where all
three inserts succeeded. -/
theorem checkout_trace_sequential (fs : FaultSpec) (now : ℕ) (sid cid pm : String)
    (cart : List CartItem) (db : DB)
    (hcart : cart.isEmpty = false) :
    (handleCheckout fs now (some sid) cid pm cart db).trace =
      (if fs.saleInsertFails
          || db.sales.any (fun s => s.receipt_number == genReceiptNumber now) then
        [Event.insertSale]
      else if fs.itemsInsertFails then
        [Event.insertSale, Event.insertItems]
      else if fs.paymentInsertFails then
        [Event.insertSale, Event.insertItems, Event.insertPayment]
      else
        [Event.insertSale, Event.insertItems, Event.insertPayment]
          ++ cart.map (fun item => Event.updateStock item.id)) ∧
    ((handleCheckout fs now (some sid) cid pm cart db).success = true ↔
      fs.saleInsertFails = false ∧
      db.sales.any (fun s => s.receipt_number == genReceiptNumber now) = false ∧
      fs.itemsInsertFails = false ∧ fs.paymentInsertFails = false) := by
  obtain ⟨sf, itf, pf⟩ := fs
  cases hany : db.sales.any (fun s => s.receipt_number == genReceiptNumber now) <;>
    cases sf <;> cases itf <;> cases pf <;>
      simp [handleCheckout, hcart, hany]

/-- Witness for `checkout_trace_sequential` at a concrete input. -/
theorem checkout_trace_sequential_witness :
    (handleCheckout FaultSpec.none 5 (some "s1") "c1" "cash" wCart DB.empty).trace =
      (if FaultSpec.none.saleInsertFails
          || DB.empty.sales.any (fun s => s.receipt_number == genReceiptNumber 5) then
        [Event.insertSale]
      else if FaultSpec.none.itemsInsertFails then
        [Event.insertSale, Event.insertItems]
      else if FaultSpec.none.paymentInsertFails then
        [Event.insertSale, Event.insertItems, Event.insertPayment]
      else
        [Event.insertSale, Event.insertItems, Event.insertPayment]
          ++ wCart.map (fun item => Event.updateStock item.id)) ∧
    ((handleCheckout FaultSpec.none 5 (some "s1") "c1" "cash" wCart DB.empty).success = true ↔
      FaultSpec.none.saleInsertFails = false ∧
      DB.empty.sales.any (fun s => s.receipt_number == genReceiptNumber 5) = false ∧
      FaultSpec.none.itemsInsertFails = false ∧ FaultSpec.none.paymentInsertFails = false) :=
  checkout_trace_sequential FaultSpec.none 5 "s1" "c1" "cash" wCart DB.empty rfl

/-! ### Receipt-number uniqueness -/

/-- Appending a sales row whose receipt number differs from every existing
one keeps the receipt numbers pairwise distinct. -/
lemma pairwise_receipts_append (l : List SaleRow) (s : SaleRow)
    (h : l.Pairwise (fun a b => a.receipt_number ≠ b.receipt_number))
    (hs : ∀ a ∈ l, a.receipt_number ≠ s.receipt_number) :
    (l ++ [s]).Pairwise (fun a b => a.receipt_number ≠ b.receipt_number) := by
  refine List.pairwise_append.mpr ⟨h, List.pairwise_singleton _ _, ?_⟩
  intro a ha b hb
  rw [List.mem_singleton] at hb
  subst hb
  exact hs a ha

/-- One checkout preserves distinctness of receipt numbers: the `sales`
insert fails (per the UNIQUE constraint) whenever the generated receipt
number already exists. -/
lemma handleCheckout_preserves_receiptsDistinct (fs : FaultSpec) (now : ℕ)
    (storeId : Option String) (cid pm : String) (cart : List CartItem) (db : DB)
    (h : receiptsDistinct db) :
    receiptsDistinct (handleCheckout fs now storeId cid pm cart db).db := by
  by_cases hempty : cart.isEmpty
  · simpa [handleCheckout, hempty] using h
  · cases storeId with
    | none => simpa [handleCheckout, hempty] using h
    | some sid =>
      by_cases hfail : (fs.saleInsertFails
          || db.sales.any (fun s => s.receipt_number == genReceiptNumber now)) = true
      · simpa [handleCheckout, hempty, hfail] using h
      · rw [Bool.or_eq_true, not_or] at hfail
        obtain ⟨hsf, hany⟩ := hfail
        have hsf' : fs.saleInsertFails = false := Bool.not_eq_true _ |>.mp hsf
        have hany' : db.sales.any
            (fun s => s.receipt_number == genReceiptNumber now) = false :=
          Bool.not_eq_true _ |>.mp hany
        have hnew : ∀ s ∈ db.sales, s.receipt_number ≠ genReceiptNumber now := by
          intro s hs
          have := List.any_eq_false.mp hany' s hs
          simpa using this
        have hsale := pairwise_receipts_append db.sales
          (mkSaleRow (toString db.nextId) (genReceiptNumber now) sid cid
            (calculateTotals cart)) h hnew
        obtain ⟨sf, itf, pf⟩ := fs
        simp only at hsf'
        subst hsf'
        cases itf <;> cases pf <;>
          simpa [handleCheckout, hempty, hany', receiptsDistinct] using hsale

/-- C4: every completed sale is assigned a unique receipt number: after any
sequence of checkout invocations starting from the empty database, the sales
rows carry pairwise-distinct receipt numbers (the UNIQUE constraint on
`sales.receipt_number` rejects a colliding insert, so no second sale with an
equal receipt number is completed). -/
theorem receipt_numbers_unique (reqs : List CheckoutRequest) :
    receiptsDistinct (runCheckouts reqs DB.empty) := by
  have hstep : ∀ db, receiptsDistinct db → receiptsDistinct (runCheckouts reqs db) := by
    induction reqs with
    | nil => intro db h; simpa [runCheckouts] using h
    | cons r rest ih =>
      intro db h
      simpa [runCheckouts] using
        ih _ (handleCheckout_preserves_receiptsDistinct r.fs r.now r.storeId
          r.cashierId r.paymentMethod r.cart db h)
  exact hstep DB.empty List.Pairwise.nil

/-! ### Stock decrement -/

/-- When the cart's product ids are pairwise distinct, the stock-update loop
sets each in-cart product's stock to the cart snapshot's stock minus the
quantity sold and leaves every other product untouched. -/
lemma applyStockUpdates_eq_map (cart : List CartItem) (products : List Product)
    (hids : cart.Pairwise (fun a b => a.id ≠ b.id)) :
    applyStockUpdates cart products =
      products.map (fun p =>
        match cart.find? (fun item => item.id == p.id) with
        | some item => { p with stock_quantity := item.stock_quantity - item.quantity }
        | Option.none => p) := by
  induction cart generalizing products with
  | nil => simp [applyStockUpdates]
  | cons item rest ih =>
    obtain ⟨hhead, hrest⟩ := List.pairwise_cons.mp hids
    have step : applyStockUpdates (item :: rest) products =
        applyStockUpdates rest (updateStockRow products item) := rfl
    rw [step, ih _ hrest, updateStockRow, List.map_map]
    refine List.map_congr_left ?_
    intro p _
    by_cases hpid : (p.id == item.id) = true
    · have hid : p.id = item.id := by simpa using hpid
      simp only [Function.comp_apply, hpid, if_pos]
      have hnone : rest.find? (fun i =>
          i.id == ({ p with stock_quantity := item.stock_quantity - item.quantity }
            : Product).id) = none := by
        refine List.find?_eq_none.mpr ?_
        intro r hr hcontra
        have : r.id = p.id := by simpa using hcontra
        exact hhead r hr (by rw [this, hid])
      have hpos : ((fun i => i.id == p.id) item) = true := by
        simp [hid]
      rw [hnone, List.find?_cons_of_pos rest hpos]
    · simp only [Function.comp_apply, hpid, if_neg, Bool.not_eq_true]
      have hneg : ¬ ((fun i => i.id == p.id) item) = true := by
        intro hcontra
        exact hpid (by simpa using (by simpa using hcontra : item.id = p.id).symm)
      rw [List.find?_cons_of_neg rest hneg]

/-- C5: on a fault-free checkout, every cart item's product has its
`stock_quantity` set to the stock value held in the cart snapshot minus the
quantity sold, and products not in the cart keep their `stock_quantity`. -/
theorem checkout_stock_decrement (now : ℕ) (sid cid pm : String)
    (cart : List CartItem) (db : DB)
    (hcart : cart.isEmpty = false)
    (hids : cart.Pairwise (fun a b => a.id ≠ b.id))
    (hdup : db.sales.any (fun s => s.receipt_number == genReceiptNumber now) = false) :
    (handleCheckout FaultSpec.none now (some sid) cid pm cart db).success = true ∧
    (handleCheckout FaultSpec.none now (some sid) cid pm cart db).db.products =
      db.products.map (fun p =>
        match cart.find? (fun item => item.id == p.id) with
        | some item => { p with stock_quantity := item.stock_quantity - item.quantity }
        | Option.none => p) := by
  constructor
  · simp [handleCheckout, hcart, hdup, FaultSpec.none]
  · have hprod : (handleCheckout FaultSpec.none now (some sid) cid pm cart db).db.products =
        applyStockUpdates cart db.products := by
      simp [handleCheckout, hcart, hdup, FaultSpec.none]
    rw [hprod, applyStockUpdates_eq_map cart db.products hids]

/-- Second concrete product used by witnesses (not in the witness cart). -/
def wProduct2 : Product :=
  { id := "p2", name := "Bread", selling_price := 30, stock_quantity := 4, vat_rate := 0 }

/-- Concrete database used by witnesses, holding both witness products. -/
def wDB : DB := { DB.empty with products := [wProduct, wProduct2] }

/-- Witness for `checkout_stock_decrement` at a concrete cart and database. -/
theorem checkout_stock_decrement_witness :
    (handleCheckout FaultSpec.none 5 (some "s1") "c1" "cash" wCart wDB).success = true ∧
    (handleCheckout FaultSpec.none 5 (some "s1") "c1" "cash" wCart wDB).db.products =
      wDB.products.map (fun p =>
        match wCart.find? (fun item => item.id == p.id) with
        | some item => { p with stock_quantity := item.stock_quantity - item.quantity }
        | Option.none => p) :=
  checkout_stock_decrement 5 "s1" "c1" "cash" wCart wDB rfl (by decide) rfl

/-! ### Cart well-formedness -/

/-- `updateQuantity` preserves cart well-formedness. -/
lemma updateQuantity_preserves_wf (cart : List CartItem) (pid : String) (q : ℤ)
    (h : CartWF cart) : CartWF (updateQuantity cart pid q) := by
  obtain ⟨hval, hids⟩ := h
  constructor
  · intro item hitem
    rw [updateQuantity, List.mem_filter] at hitem
    obtain ⟨hmem, hpos⟩ := hitem
    rw [List.mem_map] at hmem
    obtain ⟨orig, horig, heq⟩ := hmem
    rw [decide_eq_true_iff] at hpos
    refine ⟨by omega, ?_⟩
    subst heq
    by_cases hid : (orig.id == pid) = true
    · simp [hid]
    · simp [hid, (hval orig horig).2]
  · rw [updateQuantity]
    refine List.Pairwise.sublist (List.filter_sublist _) ?_
    rw [List.pairwise_map]
    refine List.Pairwise.imp ?_ hids
    intro a b hab
    by_cases ha : (a.id == pid) = true <;> by_cases hb : (b.id == pid) = true <;>
      simpa [ha, hb] using hab

/-- `removeFromCart` preserves cart well-formedness. -/
lemma removeFromCart_preserves_wf (cart : List CartItem) (pid : String)
    (h : CartWF cart) : CartWF (removeFromCart cart pid) := by
  obtain ⟨hval, hids⟩ := h
  refine ⟨?_, List.Pairwise.sublist (List.filter_sublist _) hids⟩
  intro item hitem
  rw [removeFromCart, List.mem_filter] at hitem
  exact hval item hitem.1

/-- `addToCart` preserves cart well-formedness. -/
lemma addToCart_preserves_wf (cart : List CartItem) (p : Product)
    (h : CartWF cart) : CartWF (addToCart cart p).1 := by
  rw [addToCart]
  cases hfind : cart.find? (fun item => item.id == p.id) with
  | some item =>
    by_cases hstock : p.stock_quantity ≤ item.quantity
    · simpa [hstock] using h
    · simpa [hstock] using updateQuantity_preserves_wf cart p.id (item.quantity + 1) h
  | none =>
    obtain ⟨hval, hids⟩ := h
    have habsent := List.find?_eq_none.mp hfind
    constructor
    · intro item hitem
      rcases List.mem_append.mp hitem with hm | hm
      · exact hval item hm
      · rw [List.mem_singleton] at hm
        subst hm
        exact ⟨le_refl 1, by simp [newCartItem]⟩
    · refine List.pairwise_append.mpr ⟨hids, List.pairwise_singleton _ _, ?_⟩
      intro a ha b hb
      rw [List.mem_singleton] at hb
      subst hb
      intro hcontra
      have haid : a.id = p.id := by simpa [newCartItem] using hcontra
      exact habsent a ha (by simp [haid])

/-- C8: cart well-formedness is an invariant of the cart operations: after
any sequence of `addToCart`, `updateQuantity` and `removeFromCart` applied to
the empty cart, every line has quantity at least 1 and line total equal to
price times quantity, and no two lines share a product id. -/
theorem cart_ops_preserve_wf (ops : List CartOp) : CartWF (applyCartOps ops) := by
  have hstep : ∀ (cart : List CartItem) (op : CartOp),
      CartWF cart → CartWF (applyCartOp cart op) := by
    intro cart op h
    cases op with
    | add p => exact addToCart_preserves_wf cart p h
    | update pid q => exact updateQuantity_preserves_wf cart pid q h
    | remove pid => exact removeFromCart_preserves_wf cart pid h
  have hgen : ∀ (l : List CartOp) (cart : List CartItem),
      CartWF cart → CartWF (l.foldl applyCartOp cart) := by
    intro l
    induction l with
    | nil => intro cart h; simpa using h
    | cons op rest ih => intro cart h; simpa using ih _ (hstep cart op h)
  exact hgen ops []
    ⟨fun i hi => absurd hi (List.not_mem_nil i), List.Pairwise.nil⟩

/-! ### The addToCart stock guard -/

/-- In a cart with pairwise-distinct product ids, `find?` on a member's id
returns that member. -/
lemma find?_of_mem_unique {cart : List CartItem} {x : String} {item : CartItem}
    (hids : cart.Pairwise (fun a b => a.id ≠ b.id))
    (hmem : item ∈ cart) (hid : item.id = x) :
    cart.find? (fun i => i.id == x) = some item := by
  induction cart with
  | nil => cases hmem
  | cons b rest ih =>
    obtain ⟨hb, hrest⟩ := List.pairwise_cons.mp hids
    rcases List.mem_cons.mp hmem with heq | hmem'
    · subst heq
      exact List.find?_cons_of_pos rest (by simp [hid])
    · have hbx : ¬ ((fun i : CartItem => i.id == x) b) = true := by
        intro hcontra
        have hbid : b.id = x := by simpa using hcontra
        exact hb item hmem' (hbid.trans hid.symm)
      rw [List.find?_cons_of_neg rest hbx]
      exact ih hrest hmem'

/-- Raising a well-formed cart member's quantity by one through
`updateQuantity` is the pointwise map that increments exactly that line. -/
lemma updateQuantity_incr (cart : List CartItem) (item : CartItem)
    (hwf : CartWF cart) (hmem : item ∈ cart) :
    updateQuantity cart item.id (item.quantity + 1) =
      cart.map (fun i => if i.id == item.id then
        { i with quantity := item.quantity + 1,
                 line_total := i.selling_price * ((item.quantity + 1 : ℤ) : ℚ) }
      else i) := by
  obtain ⟨hval, _⟩ := hwf
  have hq : 1 ≤ item.quantity := (hval item hmem).1
  have hmax : max 0 (item.quantity + 1) = item.quantity + 1 := max_eq_right (by omega)
  rw [updateQuantity]
  simp only [hmax]
  refine List.filter_eq_self.mpr ?_
  intro a ha
  rw [List.mem_map] at ha
  obtain ⟨orig, horig, heq⟩ := ha
  subst heq
  by_cases hid : (orig.id == item.id) = true
  · simp only [hid, if_pos, decide_eq_true_iff]
    omega
  · simp only [hid, if_neg, Bool.not_eq_true, decide_eq_true_iff]
    have := (hval orig horig).1
    omega

/-- C10: `addToCart` never raises an existing line's quantity above the
product's stock: if the product's line already has quantity at least the
product's `stock_quantity`, it reports the stock error and leaves the cart
unchanged; otherwise it increments exactly that line's quantity by 1, or
appends a fresh line with quantity 1 when the product is absent. -/
theorem addToCart_stock_guard (cart : List CartItem) (p : Product)
    (hwf : CartWF cart) :
    ((∀ i ∈ cart, i.id ≠ p.id) →
      addToCart cart p = (cart ++ [newCartItem p], false)) ∧
    (∀ item ∈ cart, item.id = p.id →
      (p.stock_quantity ≤ item.quantity → addToCart cart p = (cart, true)) ∧
      (item.quantity < p.stock_quantity →
        addToCart cart p =
          (cart.map (fun i => if i.id == p.id then
              { i with quantity := item.quantity + 1,
                       line_total := i.selling_price * ((item.quantity + 1 : ℤ) : ℚ) }
            else i), false))) := by
  constructor
  · intro habs
    have hfind : cart.find? (fun i => i.id == p.id) = none :=
      List.find?_eq_none.mpr (fun i hi hcontra => habs i hi (by simpa using hcontra))
    rw [addToCart, hfind]
  · intro item hmem hid
    have hfind : cart.find? (fun i => i.id == p.id) = some item :=
      find?_of_mem_unique hwf.2 hmem hid
    constructor
    · intro hstock
      rw [addToCart, hfind]
      exact if_pos hstock
    · intro hstock
      have hred : addToCart cart p =
          (updateQuantity cart p.id (item.quantity + 1), false) := by
        rw [addToCart, hfind]
        exact if_neg (not_le.mpr hstock)
      rw [hred, ← hid, updateQuantity_incr cart item hwf hmem]

/-- Witness for `addToCart_stock_guard`: adding the witness product (stock
10) to the witness cart (quantity 2) increments the line to quantity 3. -/
theorem addToCart_stock_guard_witness :
    addToCart wCart wProduct =
      (wCart.map (fun i => if i.id == wProduct.id then
          { i with quantity := wItem.quantity + 1,
                   line_total := i.selling_price * ((wItem.quantity + 1 : ℤ) : ℚ) }
        else i), false) := by
  have hwf : CartWF wCart := by
    constructor
    · intro item hitem
      rw [wCart, List.mem_singleton] at hitem
      subst hitem
      refine ⟨by decide, ?_⟩
      norm_num [wItem, wProduct]
    · exact List.pairwise_singleton _ _
  exact ((addToCart_stock_guard wCart wProduct hwf).2 wItem
    (List.mem_singleton.mpr rfl) rfl).2 (by decide)

end SafiriSales
